import Mathlib

/-!
Verification of the menu proxy module (`src/menu.rs`) of the `tauri-sys`
frontend bindings. The module builds frontend proxies (`Menu`, `MenuItem`)
for host-resident resources: construction issues a `plugin:menu|new` (or
`create_default`) invoke call carrying serialized options and a channel
marker, and stores the returned resource handle and entity id.

The embedding is shallow: serde serialization is modelled by functions into
a JSON-like `Value` type, and every invoke call is modelled by making the
host's response an explicit argument and returning the request that the
code sends alongside the result.
-/

namespace TauriSysMenu

/-- A JSON-like value: the image of serde serialization. Rust tuples
serialize as arrays, structs as objects in field declaration order,
`Option::None` as `null`. -/
inductive Value where
  | null : Value
  | bool (b : Bool) : Value
  | nat (n : Nat) : Value
  | int (i : Int) : Value
  | str (s : String) : Value
  | arr (xs : List Value) : Value
  | obj (fields : List (String × Value)) : Value
deriving Repr

/-- serde serialization of `Option<T>`: `None` becomes `null`, `Some x`
serializes the payload. -/
def serOpt {α : Type} (f : α → Value) : Option α → Value
  | none => Value.null
  | some a => f a

/-- One request sent through the invoke client: the operation name and the
serialized arguments. -/
structure InvokeRequest where
  cmd : String
  args : Value
deriving Repr

/-- Modelled from the spec: `core::Channel<T>` (the `core` module is not in
the sources). An Event Channel is a process-unique numeric identifier plus
an ordered inbox of messages; `id()` exposes the identifier. -/
structure Channel (T : Type) where
  id : Nat
  inbox : List T

/-- Modelled from the spec: `core::Channel::new()` allocates a fresh channel
with a process-unique identifier and an empty inbox. Freshness of the
identifier is an argument of the model. -/
def Channel.new {T : Type} (id : Nat) : Channel T :=
  { id := id, inbox := [] }

/-- `Message<T>` from `src/menu.rs`: a delivered event, carrying the
host-assigned sequence id and the payload. -/
structure Message (T : Type) where
  id : Nat
  message : T

/-- `type Rid = usize`. -/
def Rid : Type := Nat
deriving DecidableEq, Repr

/-- `MenuId(pub String)`: the textual entity identifier. -/
structure MenuId where
  val : String
deriving Repr, DecidableEq

/-- `#[serde(transparent)]` serialization of `MenuId`. -/
def MenuId.serialize (m : MenuId) : Value := Value.str m.val

/-- `ItemKind` from `src/menu.rs`. -/
inductive ItemKind where
  | MenuItem
  | Predefined
  | Check
  | Icon
  | Submenu
  | Menu
deriving Repr, DecidableEq

/-- `ItemKind::as_str`. -/
def ItemKind.as_str : ItemKind → String
  | .MenuItem => "MenuItem"
  | .Predefined => "Predefined"
  | .Check => "Check"
  | .Icon => "Icon"
  | .Submenu => "Submenu"
  | .Menu => "Menu"

/-- `ChannelId` from `src/menu.rs`: the marker embedded in creation
requests in place of a raw channel. -/
structure ChannelId where
  id : Nat
deriving Repr, DecidableEq

/-- `ChannelId::from(&channel)` (`from` is a Lean keyword, hence the
name): captures the channel's numeric identifier. -/
def ChannelId.fromChannel {T : Type} (channel : Channel T) : ChannelId :=
  { id := channel.id }

/-- The manual `Serialize` impl for `ChannelId`: a two-field struct with
the reserved sentinel key set to `true` and the numeric id. -/
def ChannelId.serialize (c : ChannelId) : Value :=
  Value.obj [("__TAURI_CHANNEL_MARKER__", Value.bool true), ("id", Value.nat c.id)]

/-- `MenuOptions` from `src/menu.rs`. -/
structure MenuOptions where
  id : Option MenuId
deriving Repr, DecidableEq

/-- Derived serde serialization of `MenuOptions`. -/
def MenuOptions.serialize (o : MenuOptions) : Value :=
  Value.obj [("id", serOpt MenuId.serialize o.id)]

/-- `AppendItemArgs` from `src/menu.rs`. -/
structure AppendItemArgs where
  rid : Nat
  kind : String
  items : List (Nat × String)
deriving Repr, DecidableEq

/-- Derived serde serialization of `AppendItemArgs`; each `(Rid, String)`
tuple serializes as a two-element array. -/
def AppendItemArgs.serialize (a : AppendItemArgs) : Value :=
  Value.obj
    [("rid", Value.nat a.rid),
     ("kind", Value.str a.kind),
     ("items", Value.arr (a.items.map fun p => Value.arr [Value.nat p.1, Value.str p.2]))]

/-- Modelled from the spec: `window::WindowLabel` (the `window` module is
not in the sources); a textual window reference. Only ever sent as
`None` by this module. -/
structure WindowLabel where
  label : String
deriving Repr, DecidableEq

/-- Serialization of a `WindowLabel`. -/
def WindowLabel.serialize (w : WindowLabel) : Value := Value.str w.label

/-- The local `Position` struct of `Menu::popup`. -/
structure Position where
  x : Int
  y : Int
deriving Repr, DecidableEq

/-- Serialization of the `at` map of `Menu::popup` (a `HashMap<String,
Position>`, modelled as an association list; only ever sent as `None`). -/
def serPosMap (m : List (String × Position)) : Value :=
  Value.obj (m.map fun p => (p.1, Value.obj [("x", Value.int p.2.x), ("y", Value.int p.2.y)]))

/-- `Menu` from `src/menu.rs`: resource handle, entity id, and an optional
event channel (`Menu::default` stores none). -/
structure Menu where
  rid : Nat
  id : MenuId
  channel : Option (Channel (Message String))

namespace Menu

/-- `Menu::with_id`: allocates a fresh channel (its fresh identifier is the
`chanId` argument of the model), sends `plugin:menu|new` with
`{kind, options, handler}`, and stores the host's `(rid, id)` response. -/
def with_id (id : MenuId) (chanId : Nat) (resp : Nat × String) : Menu × InvokeRequest :=
  let options : MenuOptions := { id := some id }
  let channel : Channel (Message String) := Channel.new chanId
  let req : InvokeRequest :=
    { cmd := "plugin:menu|new"
      args := Value.obj
        [("kind", Value.str ItemKind.Menu.as_str),
         ("options", options.serialize),
         ("handler", (ChannelId.fromChannel channel).serialize)] }
  ({ rid := resp.1, id := { val := resp.2 }, channel := some channel }, req)

/-- `Menu::default`: sends `plugin:menu|create_default` with unit arguments
(serialized as `null`) and stores the response; no channel is created. -/
def «default» (resp : Nat × String) : Menu × InvokeRequest :=
  ({ rid := resp.1, id := { val := resp.2 }, channel := none },
   { cmd := "plugin:menu|create_default", args := Value.null })

/-- `Menu::kind`. -/
def kind : String := ItemKind.Menu.as_str

end Menu

namespace item

/-- `item::MenuItemOptions` from `src/menu.rs`. -/
structure MenuItemOptions where
  id : Option MenuId
  text : String
  enabled : Option Bool
  accelerator : Option String
deriving Repr, DecidableEq

/-- Derived serde serialization of `MenuItemOptions` (declaration order:
`id`, `text`, `enabled`, `accelerator`). -/
def MenuItemOptions.serialize (o : MenuItemOptions) : Value :=
  Value.obj
    [("id", serOpt MenuId.serialize o.id),
     ("text", Value.str o.text),
     ("enabled", serOpt Value.bool o.enabled),
     ("accelerator", serOpt Value.str o.accelerator)]

/-- `MenuItemOptions::new`. -/
def MenuItemOptions.new (text : String) : MenuItemOptions :=
  { id := none, text := text, enabled := none, accelerator := none }

/-- `MenuItemOptions::set_id` (the Rust method mutates in place and
returns `&mut Self`; modelled as returning the updated value). -/
def MenuItemOptions.set_id (o : MenuItemOptions) (id : MenuId) : MenuItemOptions :=
  { o with id := some id }

/-- `MenuItemOptions::set_enabled`. -/
def MenuItemOptions.set_enabled (o : MenuItemOptions) (enabled : Bool) : MenuItemOptions :=
  { o with enabled := some enabled }

/-- `MenuItemOptions::set_accelerator`. -/
def MenuItemOptions.set_accelerator (o : MenuItemOptions) (accelerator : String) :
    MenuItemOptions :=
  { o with accelerator := some accelerator }

/-- `item::MenuItem` from `src/menu.rs`: resource handle, entity id, and
an (always-present) event channel. -/
structure MenuItem where
  rid : Nat
  id : MenuId
  channel : Channel (Message String)

/-- `MenuItem::with_options`: allocates a fresh channel, sends
`plugin:menu|new` with `{kind, options, handler}`, and stores the host's
`(rid, id)` response. -/
def MenuItem.with_options (options : MenuItemOptions) (chanId : Nat) (resp : Nat × String) :
    MenuItem × InvokeRequest :=
  let channel : Channel (Message String) := Channel.new chanId
  let req : InvokeRequest :=
    { cmd := "plugin:menu|new"
      args := Value.obj
        [("kind", Value.str ItemKind.MenuItem.as_str),
         ("options", options.serialize),
         ("handler", (ChannelId.fromChannel channel).serialize)] }
  ({ rid := resp.1, id := { val := resp.2 }, channel := channel }, req)

/-- `MenuItem::with_id`: builds options from the text, sets the id, and
delegates to `with_options`. -/
def MenuItem.with_id (text : String) (id : MenuId) (chanId : Nat) (resp : Nat × String) :
    MenuItem × InvokeRequest :=
  let options := (MenuItemOptions.new text).set_id id
  MenuItem.with_options options chanId resp

/-- `MenuItem::kind`. -/
def MenuItem.kind : String := ItemKind.MenuItem.as_str

/-- `MenuItem::listen`: returns (a mutable reference to) the proxy's own
channel; issues no invoke call. -/
def MenuItem.listen (m : MenuItem) : Channel (Message String) := m.channel

end item

namespace Menu

/-- `Menu::append_item`: sends `plugin:menu|append` through
`invoke_result`, with the parent's rid and kind and the single
`(child rid, child kind)` pair; the host's fallible unit response is the
model's `hostResp` argument and is returned unchanged. -/
def append_item (m : Menu) (child : item.MenuItem) (hostResp : Except Unit Unit) :
    InvokeRequest × Except Unit Unit :=
  ({ cmd := "plugin:menu|append"
     args := AppendItemArgs.serialize
       { rid := m.rid, kind := Menu.kind, items := [(child.rid, item.MenuItem.kind)] } },
   hostResp)

/-- `Menu::popup`: sends `plugin:menu|popup` through `invoke_result` with
the menu's rid and kind and `window = None`, `at = None`; the host's
fallible unit response is returned unchanged. -/
def popup (m : Menu) (hostResp : Except Unit Unit) : InvokeRequest × Except Unit Unit :=
  ({ cmd := "plugin:menu|popup"
     args := Value.obj
       [("rid", Value.nat m.rid),
        ("kind", Value.str Menu.kind),
        ("window", serOpt WindowLabel.serialize none),
        ("at", serOpt serPosMap none)] },
   hostResp)

/-- `Menu::listen`: returns (a mutable reference to) the proxy's channel,
when present; issues no invoke call. -/
def listen (m : Menu) : Option (Channel (Message String)) := m.channel

end Menu

/-- A public operation performed on a `Menu` proxy after construction. The
`listen` case records what the caller does through the returned mutable
channel reference: the channel's only caller-reachable mutable state is
its inbox. -/
inductive MenuOp where
  | appendItem (child : item.MenuItem) (hostResp : Except Unit Unit)
  | popup (hostResp : Except Unit Unit)
  | listen (f : List (Message String) → List (Message String))

/-- The proxy state after one operation: `append_item` and `popup` take
`&self` and cannot change the proxy; `listen` hands out `&mut` access to
the channel's inbox only. -/
def Menu.step (m : Menu) : MenuOp → Menu
  | .appendItem _ _ => m
  | .popup _ => m
  | .listen f => { m with channel := m.channel.map fun c => { c with inbox := f c.inbox } }

/-- The proxy state after a sequence of operations. -/
def Menu.run (m : Menu) (ops : List MenuOp) : Menu :=
  ops.foldl Menu.step m

/-- The invoke requests one operation emits: `append_item` and `popup`
each send exactly one request; `listen` performs no transport call. -/
def Menu.opRequests (m : Menu) : MenuOp → List InvokeRequest
  | .appendItem child hostResp => [(m.append_item child hostResp).1]
  | .popup hostResp => [(m.popup hostResp).1]
  | .listen _ => []

/-- A public operation performed on a `MenuItem` proxy after construction:
only `listen` exists, recorded with the caller's inbox mutation. -/
inductive MenuItemOp where
  | listen (f : List (Message String) → List (Message String))

/-- The `MenuItem` state after one operation. -/
def item.MenuItem.step (m : item.MenuItem) : MenuItemOp → item.MenuItem
  | .listen f => { m with channel := { m.channel with inbox := f m.channel.inbox } }

/-- The `MenuItem` state after a sequence of operations. -/
def item.MenuItem.run (m : item.MenuItem) (ops : List MenuItemOp) : item.MenuItem :=
  ops.foldl item.MenuItem.step m

/-! Helper lemmas: the proxy fields preserved by every operation. -/

theorem Menu.step_rid (m : Menu) (op : MenuOp) : (m.step op).rid = m.rid := by
  cases op <;> rfl

theorem Menu.run_rid (m : Menu) (ops : List MenuOp) : (m.run ops).rid = m.rid := by
  induction ops generalizing m with
  | nil => rfl
  | cons op rest ih =>
      show (Menu.run (m.step op) rest).rid = m.rid
      rw [ih, Menu.step_rid]

theorem Menu.step_entity_id (m : Menu) (op : MenuOp) : (m.step op).id = m.id := by
  cases op <;> rfl

theorem Menu.run_entity_id (m : Menu) (ops : List MenuOp) : (m.run ops).id = m.id := by
  induction ops generalizing m with
  | nil => rfl
  | cons op rest ih =>
      show (Menu.run (m.step op) rest).id = m.id
      rw [ih, Menu.step_entity_id]

theorem Menu.step_channel_id (m : Menu) (op : MenuOp) :
    (m.step op).channel.map Channel.id = m.channel.map Channel.id := by
  obtain ⟨r, i, ch⟩ := m
  cases op with
  | appendItem child hostResp => rfl
  | popup hostResp => rfl
  | listen f => cases ch <;> rfl

theorem Menu.run_channel_id (m : Menu) (ops : List MenuOp) :
    (m.run ops).channel.map Channel.id = m.channel.map Channel.id := by
  induction ops generalizing m with
  | nil => rfl
  | cons op rest ih =>
      show (Menu.run (m.step op) rest).channel.map Channel.id = m.channel.map Channel.id
      rw [ih, Menu.step_channel_id]

theorem item.MenuItem.mitem_step_rid (m : item.MenuItem) (op : MenuItemOp) :
    (m.step op).rid = m.rid := by
  cases op
  rfl

theorem item.MenuItem.mitem_run_rid (m : item.MenuItem) (ops : List MenuItemOp) :
    (m.run ops).rid = m.rid := by
  induction ops generalizing m with
  | nil => rfl
  | cons op rest ih =>
      show (item.MenuItem.run (m.step op) rest).rid = m.rid
      rw [ih, item.MenuItem.mitem_step_rid]

theorem item.MenuItem.mitem_step_entity_id (m : item.MenuItem) (op : MenuItemOp) :
    (m.step op).id = m.id := by
  cases op
  rfl

theorem item.MenuItem.mitem_run_entity_id (m : item.MenuItem) (ops : List MenuItemOp) :
    (m.run ops).id = m.id := by
  induction ops generalizing m with
  | nil => rfl
  | cons op rest ih =>
      show (item.MenuItem.run (m.step op) rest).id = m.id
      rw [ih, item.MenuItem.mitem_step_entity_id]

theorem item.MenuItem.mitem_step_channel_id (m : item.MenuItem) (op : MenuItemOp) :
    (m.step op).channel.id = m.channel.id := by
  cases op
  rfl

theorem item.MenuItem.mitem_run_channel_id (m : item.MenuItem) (ops : List MenuItemOp) :
    (m.run ops).channel.id = m.channel.id := by
  induction ops generalizing m with
  | nil => rfl
  | cons op rest ih =>
      show (item.MenuItem.run (m.step op) rest).channel.id = m.channel.id
      rw [ih, item.MenuItem.mitem_step_channel_id]

/-- C1: for every channel with numeric identifier N, serializing the
ChannelId marker built from it yields exactly the two-field object with
the reserved sentinel key set to `true` and `id` equal to N. -/
theorem channelId_marker_serialization {T : Type} (c : Channel T) :
    (ChannelId.fromChannel c).serialize =
      Value.obj [("__TAURI_CHANNEL_MARKER__", Value.bool true), ("id", Value.nat c.id)] :=
  rfl

/-- C2: for every proxy constructed via `with_id`, `with_options`, or
`default`, `rid` equals the handle component of the host's creation
response, and is unchanged by any sequence of subsequent operations. -/
theorem rid_equals_handle_and_never_changes (mid : MenuId) (text : String)
    (opts : item.MenuItemOptions) (cid h : Nat) (eid : String)
    (ops : List MenuOp) (iops : List MenuItemOp) :
    (((Menu.with_id mid cid (h, eid)).1).run ops).rid = h
    ∧ (((Menu.default (h, eid)).1).run ops).rid = h
    ∧ (((item.MenuItem.with_options opts cid (h, eid)).1).run iops).rid = h
    ∧ (((item.MenuItem.with_id text mid cid (h, eid)).1).run iops).rid = h := by
  refine ⟨?_, ?_, ?_, ?_⟩ <;>
    first
      | (rw [Menu.run_rid]; rfl)
      | (rw [item.MenuItem.mitem_run_rid]; rfl)

/-- C3: `append_item(parent, child)` emits exactly one request, to
`plugin:menu|append`, whose `items` list is the single pair
`(child.rid(), "MenuItem")` — the child's kind tag — alongside the
parent's rid and the parent's kind `"Menu"`. -/
theorem append_item_sends_child_pair (m : Menu) (child : item.MenuItem)
    (hostResp : Except Unit Unit) :
    m.opRequests (MenuOp.appendItem child hostResp) =
      [{ cmd := "plugin:menu|append"
         args := Value.obj
           [("rid", Value.nat m.rid),
            ("kind", Value.str "Menu"),
            ("items", Value.arr [Value.arr [Value.nat child.rid, Value.str "MenuItem"]])] }] :=
  rfl

/-- C4: creating a MenuItem with text "Open" and id "open-item" via
`with_id` sends exactly one `plugin:menu|new` request with
`{kind: "MenuItem", options: {id: "open-item", text: "Open", enabled:
null, accelerator: null}, handler: the fresh channel's marker}`, and the
resulting proxy's rid equals the handle returned by the host. -/
theorem menuItem_open_creation (cid h : Nat) (eid : String) :
    (item.MenuItem.with_id "Open" (MenuId.mk "open-item") cid (h, eid)).2 =
      { cmd := "plugin:menu|new"
        args := Value.obj
          [("kind", Value.str "MenuItem"),
           ("options", Value.obj
             [("id", Value.str "open-item"),
              ("text", Value.str "Open"),
              ("enabled", Value.null),
              ("accelerator", Value.null)]),
           ("handler", Value.obj
             [("__TAURI_CHANNEL_MARKER__", Value.bool true),
              ("id", Value.nat cid)])] }
    ∧ (item.MenuItem.with_id "Open" (MenuId.mk "open-item") cid (h, eid)).1.rid = h
    ∧ (item.MenuItem.with_id "Open" (MenuId.mk "open-item") cid (42, eid)).1.rid = 42 :=
  ⟨rfl, rfl, rfl⟩

/-- C5 counterexample: a Menu constructed via `default` (with host
response `(0, "")`) carries no Event Channel at all, so not every proxy,
however constructed, has exactly one channel. -/
theorem menu_default_has_no_channel :
    ((Menu.default (0, "")).1).channel = none :=
  rfl

/-- C5 amended: every proxy carries at most one Event Channel: a Menu
built via `with_id` and every MenuItem (built via `with_options` with
arbitrary options, or via `with_id`) carry exactly one — the freshly
created channel — at all times, a Menu built via `default` carries none
at all times, and any two proxies (Menu–Menu, Menu–MenuItem, or
MenuItem–MenuItem) whose channels were created with distinct fresh
identifiers never share a channel. -/
theorem channel_per_proxy (mid₁ mid₂ : MenuId) (text : String)
    (opts₁ opts₂ : item.MenuItemOptions) (cid₁ cid₂ h₁ h₂ : Nat)
    (eid₁ eid₂ : String) (ops₁ ops₂ : List MenuOp) (iops₁ iops₂ : List MenuItemOp)
    (hne : cid₁ ≠ cid₂) :
    ((Menu.with_id mid₁ cid₁ (h₁, eid₁)).1.run ops₁).channel.map Channel.id = some cid₁
    ∧ ((Menu.default (h₁, eid₁)).1.run ops₁).channel = none
    ∧ ((item.MenuItem.with_options opts₂ cid₂ (h₂, eid₂)).1.run iops₂).channel.id = cid₂
    ∧ ((item.MenuItem.with_id text mid₂ cid₂ (h₂, eid₂)).1.run iops₂).channel.id = cid₂
    ∧ ((Menu.with_id mid₁ cid₁ (h₁, eid₁)).1.run ops₁).channel.map Channel.id ≠
        ((Menu.with_id mid₂ cid₂ (h₂, eid₂)).1.run ops₂).channel.map Channel.id
    ∧ ((Menu.with_id mid₁ cid₁ (h₁, eid₁)).1.run ops₁).channel.map Channel.id ≠
        some ((item.MenuItem.with_options opts₂ cid₂ (h₂, eid₂)).1.run iops₂).channel.id
    ∧ ((item.MenuItem.with_options opts₁ cid₁ (h₁, eid₁)).1.run iops₁).channel.id ≠
        ((item.MenuItem.with_options opts₂ cid₂ (h₂, eid₂)).1.run iops₂).channel.id := by
  have hm₁ : ((Menu.with_id mid₁ cid₁ (h₁, eid₁)).1.run ops₁).channel.map Channel.id
      = some cid₁ := by
    rw [Menu.run_channel_id]; rfl
  have hm₂ : ((Menu.with_id mid₂ cid₂ (h₂, eid₂)).1.run ops₂).channel.map Channel.id
      = some cid₂ := by
    rw [Menu.run_channel_id]; rfl
  have hi₁ : ((item.MenuItem.with_options opts₁ cid₁ (h₁, eid₁)).1.run iops₁).channel.id
      = cid₁ := by
    rw [item.MenuItem.mitem_run_channel_id]; rfl
  have hi₂ : ((item.MenuItem.with_options opts₂ cid₂ (h₂, eid₂)).1.run iops₂).channel.id
      = cid₂ := by
    rw [item.MenuItem.mitem_run_channel_id]; rfl
  have hw : ((item.MenuItem.with_id text mid₂ cid₂ (h₂, eid₂)).1.run iops₂).channel.id
      = cid₂ := by
    rw [item.MenuItem.mitem_run_channel_id]; rfl
  have hd : ((Menu.default (h₁, eid₁)).1.run ops₁).channel = none := by
    have h0 : ((Menu.default (h₁, eid₁)).1.run ops₁).channel.map Channel.id = none := by
      rw [Menu.run_channel_id]; rfl
    exact Option.map_eq_none'.mp h0
  refine ⟨hm₁, hd, hi₂, hw, ?_, ?_, ?_⟩
  · rw [hm₁, hm₂]
    exact fun hc => hne (Option.some.inj hc)
  · rw [hm₁, hi₂]
    exact fun hc => hne (Option.some.inj hc)
  · rw [hi₁, hi₂]
    exact hne

/-- Witness for C5 amended at concrete inputs. -/
theorem channel_per_proxy_spot :
    (0 : Nat) ≠ 1 ∧
    (((Menu.with_id (MenuId.mk "a") 0 (5, "m")).1.run []).channel.map Channel.id = some 0
     ∧ ((Menu.default (5, "m")).1.run []).channel = none
     ∧ (((item.MenuItem.with_options ((item.MenuItemOptions.new "y").set_enabled true)
           1 (6, "i")).1.run []).channel.id = 1)
     ∧ ((item.MenuItem.with_id "t" (MenuId.mk "b") 1 (6, "i")).1.run []).channel.id = 1
     ∧ ((Menu.with_id (MenuId.mk "a") 0 (5, "m")).1.run []).channel.map Channel.id ≠
         ((Menu.with_id (MenuId.mk "b") 1 (6, "i")).1.run []).channel.map Channel.id
     ∧ ((Menu.with_id (MenuId.mk "a") 0 (5, "m")).1.run []).channel.map Channel.id ≠
         some (((item.MenuItem.with_options ((item.MenuItemOptions.new "y").set_enabled true)
           1 (6, "i")).1.run []).channel.id)
     ∧ (((item.MenuItem.with_options (item.MenuItemOptions.new "x")
           0 (5, "m")).1.run []).channel.id ≠
         ((item.MenuItem.with_options ((item.MenuItemOptions.new "y").set_enabled true)
           1 (6, "i")).1.run []).channel.id)) :=
  ⟨by decide,
   channel_per_proxy (MenuId.mk "a") (MenuId.mk "b") "t"
     (item.MenuItemOptions.new "x") ((item.MenuItemOptions.new "y").set_enabled true)
     0 1 5 6 "m" "i" [] [] [] [] (by decide)⟩

/-- C6: `popup()` with no window or position arguments emits exactly one
request, to `plugin:menu|popup`, with body `{rid, kind: "Menu", window:
null, at: null}`, and the call's result is exactly the host's fallible
unit response. -/
theorem popup_request_and_result (m : Menu) (hostResp : Except Unit Unit) :
    m.opRequests (MenuOp.popup hostResp) =
      [{ cmd := "plugin:menu|popup"
         args := Value.obj
           [("rid", Value.nat m.rid),
            ("kind", Value.str "Menu"),
            ("window", Value.null),
            ("at", Value.null)] }]
    ∧ (m.popup hostResp).2 = hostResp :=
  ⟨rfl, rfl⟩

/-- C7: the EntityId stored at construction from the creation response
never changes: it equals the id component of the host's response, and no
sequence of subsequent operations modifies it. -/
theorem entityId_never_changes (mid : MenuId) (text : String)
    (opts : item.MenuItemOptions) (cid h : Nat) (eid : String)
    (ops : List MenuOp) (iops : List MenuItemOp) :
    (((Menu.with_id mid cid (h, eid)).1).run ops).id = MenuId.mk eid
    ∧ (((Menu.default (h, eid)).1).run ops).id = MenuId.mk eid
    ∧ (((item.MenuItem.with_options opts cid (h, eid)).1).run iops).id = MenuId.mk eid
    ∧ (((item.MenuItem.with_id text mid cid (h, eid)).1).run iops).id = MenuId.mk eid := by
  refine ⟨?_, ?_, ?_, ?_⟩ <;>
    first
      | (rw [Menu.run_entity_id]; rfl)
      | (rw [item.MenuItem.mitem_run_entity_id]; rfl)

/-- C8: `listen` returns the proxy's own Event Channel, emits no invoke
request, and (absent mutation through the returned reference) changes no
proxy state. -/
theorem listen_returns_own_channel (m : Menu) (mi : item.MenuItem) :
    m.listen = m.channel
    ∧ m.opRequests (MenuOp.listen fun inbox => inbox) = []
    ∧ m.step (MenuOp.listen fun inbox => inbox) = m
    ∧ mi.listen = mi.channel
    ∧ mi.step (MenuItemOp.listen fun inbox => inbox) = mi := by
  obtain ⟨r, i, ch⟩ := m
  refine ⟨rfl, rfl, ?_, rfl, rfl⟩
  cases ch <;> rfl

/-- C9: `MenuItem::with_id(text, id)` is observably equivalent to
`MenuItem::with_options` applied to `MenuItemOptions::new(text)` with
`set_id(id)`: identical creation request and identical resulting proxy. -/
theorem with_id_refines_with_options (text : String) (id : MenuId) (cid : Nat)
    (resp : Nat × String) :
    item.MenuItem.with_id text id cid resp =
      item.MenuItem.with_options ((item.MenuItemOptions.new text).set_id id) cid resp :=
  rfl

/-- C10: `MenuItemOptions::new(text)` leaves `id`, `enabled`, and
`accelerator` unset and stores the text; each setter assigns only its own
field to `some` of its argument and leaves the other three fields
unchanged. -/
theorem menuItemOptions_new_and_setters (text : String) (o : item.MenuItemOptions)
    (id : MenuId) (enabled : Bool) (accelerator : String) :
    ((item.MenuItemOptions.new text).id = none
     ∧ (item.MenuItemOptions.new text).text = text
     ∧ (item.MenuItemOptions.new text).enabled = none
     ∧ (item.MenuItemOptions.new text).accelerator = none)
    ∧ ((o.set_id id).id = some id
       ∧ (o.set_id id).text = o.text
       ∧ (o.set_id id).enabled = o.enabled
       ∧ (o.set_id id).accelerator = o.accelerator)
    ∧ ((o.set_enabled enabled).enabled = some enabled
       ∧ (o.set_enabled enabled).id = o.id
       ∧ (o.set_enabled enabled).text = o.text
       ∧ (o.set_enabled enabled).accelerator = o.accelerator)
    ∧ ((o.set_accelerator accelerator).accelerator = some accelerator
       ∧ (o.set_accelerator accelerator).id = o.id
       ∧ (o.set_accelerator accelerator).text = o.text
       ∧ (o.set_accelerator accelerator).enabled = o.enabled) :=
  ⟨⟨rfl, rfl, rfl, rfl⟩, ⟨rfl, rfl, rfl, rfl⟩, ⟨rfl, rfl, rfl, rfl⟩, ⟨rfl, rfl, rfl, rfl⟩⟩

end TauriSysMenu
